import Mathlib

/-!
Shallow embedding of the core financial-projection model of
`src/pages/2_Company_Business_Plan.py` (Market Explorer V2).

The page computes, from a hotel company's annual revenue and a handful of
business assumptions, an insurance point estimate (room-nights, stays,
policies, gross/net insurance revenue, claims, loss ratio), a 12-month
seasonal table and a multi-year growth table.  The straight-line Python
float arithmetic is embedded as exact arithmetic: the purely rational part
of the model over `ℚ` (computable, decidable on concrete inputs) and the
seasonality curve — which uses `math.cos` — over `ℝ`.
Python's `float("nan")` sentinels (for `adr` and `loss_ratio`) are embedded
as `Option` with `none` for the undefined case.
-/

/-- The sidebar/dataset inputs of the page that feed the rational part of
the model (`peak_month` and `seasonality_amp` are kept separate because
they only feed the real-valued seasonality curve). -/
structure Scenario where
  rooms : ℕ
  occupancy : ℚ
  avg_stay : ℚ
  hotel_rev_year_eur : ℚ
  insurance_price : ℚ
  take_rate : ℚ
  claim_rate : ℚ
  avg_claim_cost : ℚ
  horizon_years : ℕ
  growth : ℚ

/-- `room_nights_capacity = rooms * 365.0`. -/
def room_nights_capacity (s : Scenario) : ℚ := (s.rooms : ℚ) * 365

/-- `room_nights_sold = room_nights_capacity * occupancy if occupancy > 0 else 0.0`. -/
def room_nights_sold (s : Scenario) : ℚ :=
  if s.occupancy > 0 then room_nights_capacity s * s.occupancy else 0

/-- `adr = (hotel_rev_year_eur / room_nights_sold) if room_nights_sold > 0 else float("nan")`;
the NaN sentinel is embedded as `none`. -/
def adr (s : Scenario) : Option ℚ :=
  if room_nights_sold s > 0 then some (s.hotel_rev_year_eur / room_nights_sold s) else none

/-- `stays = (room_nights_sold / avg_stay) if avg_stay > 0 else 0.0`. -/
def stays (s : Scenario) : ℚ :=
  if s.avg_stay > 0 then room_nights_sold s / s.avg_stay else 0

/-- `policies = stays * take_rate`. -/
def policies (s : Scenario) : ℚ := stays s * s.take_rate

/-- `gross_ins_rev = policies * insurance_price`. -/
def gross_ins_rev (s : Scenario) : ℚ := policies s * s.insurance_price

/-- `claims = policies * claim_rate * avg_claim_cost`. -/
def claims (s : Scenario) : ℚ := policies s * s.claim_rate * s.avg_claim_cost

/-- `net_ins_rev = gross_ins_rev - claims`. -/
def net_ins_rev (s : Scenario) : ℚ := gross_ins_rev s - claims s

/-- `loss_ratio = (claims / gross_ins_rev) if gross_ins_rev > 0 else float("nan")`;
the NaN sentinel is embedded as `none`. -/
def loss_ratio (s : Scenario) : Option ℚ :=
  if gross_ins_rev s > 0 then some (claims s / gross_ins_rev s) else none

/-- `attach_rate = take_rate`. -/
def attach_rate (s : Scenario) : ℚ := s.take_rate

/-- The angle of the cosine seasonality curve:
`angle = 2 * math.pi * (m - peak_idx) / 12` with `peak_idx = (peak_month - 1) % 12`. -/
noncomputable def seasonAngle (peak_month m : ℕ) : ℝ :=
  2 * Real.pi * ((m : ℝ) - (((peak_month - 1) % 12 : ℕ) : ℝ)) / 12

/-- One raw seasonality value: `max(0.05, 1.0 + amplitude * math.cos(angle))`
(the `0.05` floor avoids near-zero months). -/
noncomputable def seasonRaw (peak_month : ℕ) (amplitude : ℝ) (m : ℕ) : ℝ :=
  max 0.05 (1 + amplitude * Real.cos (seasonAngle peak_month m))

/-- `s = sum(vals)`: the sum of the 12 raw seasonality values. -/
noncomputable def seasonSum (peak_month : ℕ) (amplitude : ℝ) : ℝ :=
  ∑ k : Fin 12, seasonRaw peak_month amplitude k

/-- One normalized seasonality weight `v / s`. -/
noncomputable def seasonWeight (peak_month : ℕ) (amplitude : ℝ) (m : ℕ) : ℝ :=
  seasonRaw peak_month amplitude m / seasonSum peak_month amplitude

/-- `_seasonality_weights(peak_month, amplitude)`: the list
`[v / s for v in vals]` of 12 normalized cosine weights. -/
noncomputable def seasonalityWeights (peak_month : ℕ) (amplitude : ℝ) : List ℝ :=
  List.ofFn (fun m : Fin 12 => seasonWeight peak_month amplitude m)

/-- One row of the monthly (Year-1) table `df_month`: every annual
point-estimate field multiplied by the month's seasonality weight. -/
structure MonthRow where
  weight : ℝ
  hotelRevenue : ℝ
  roomNightsSold : ℝ
  staysM : ℝ
  policiesM : ℝ
  grossInsuranceRevenue : ℝ
  claimsM : ℝ
  netInsuranceRevenue : ℝ

/-- Row `m` of `df_month` (months are 0-indexed here; row `m` is calendar
month `m+1`). -/
noncomputable def monthRow (s : Scenario) (peak_month : ℕ) (amplitude : ℝ)
    (m : ℕ) : MonthRow :=
  { weight := seasonWeight peak_month amplitude m
    hotelRevenue := (s.hotel_rev_year_eur : ℝ) * seasonWeight peak_month amplitude m
    roomNightsSold := (room_nights_sold s : ℝ) * seasonWeight peak_month amplitude m
    staysM := (stays s : ℝ) * seasonWeight peak_month amplitude m
    policiesM := (policies s : ℝ) * seasonWeight peak_month amplitude m
    grossInsuranceRevenue := (gross_ins_rev s : ℝ) * seasonWeight peak_month amplitude m
    claimsM := (claims s : ℝ) * seasonWeight peak_month amplitude m
    netInsuranceRevenue := (net_ins_rev s : ℝ) * seasonWeight peak_month amplitude m }

/-- `df_month`: the 12-row monthly (Year-1) projection table. -/
noncomputable def df_month (s : Scenario) (peak_month : ℕ) (amplitude : ℝ) :
    List MonthRow :=
  List.ofFn (fun m : Fin 12 => monthRow s peak_month amplitude m)

/-- `df_year["HotelRevenue"]` for year `y` (1-indexed):
`hotel_rev_year_eur * ((1 + growth) ** (y - 1))`. -/
def hotelRevenueYear (s : Scenario) (y : ℕ) : ℚ :=
  s.hotel_rev_year_eur * (1 + s.growth) ^ (y - 1)

/-- `rev_scale = df_year["HotelRevenue"] / hotel_rev_year_eur if
hotel_rev_year_eur > 0 else 0.0`. -/
def rev_scale (s : Scenario) (y : ℕ) : ℚ :=
  if s.hotel_rev_year_eur > 0 then hotelRevenueYear s y / s.hotel_rev_year_eur else 0

/-- One row of the multi-year annual projection table `df_year`. -/
structure YearRow where
  year : ℕ
  hotelRevenue : ℚ
  roomNightsSold : ℚ
  staysY : ℚ
  policiesY : ℚ
  grossInsuranceRevenue : ℚ
  claimsY : ℚ
  netInsuranceRevenue : ℚ

/-- Row for year `y` of `df_year`: volumes scale with revenue through
`rev_scale`; insurance fields are recomputed from the scaled stays. -/
def yearRow (s : Scenario) (y : ℕ) : YearRow :=
  let staysOfYear := stays s * rev_scale s y
  let policiesOfYear := staysOfYear * attach_rate s
  let grossOfYear := policiesOfYear * s.insurance_price
  let claimsOfYear := policiesOfYear * s.claim_rate * s.avg_claim_cost
  { year := y
    hotelRevenue := hotelRevenueYear s y
    roomNightsSold := room_nights_sold s * rev_scale s y
    staysY := staysOfYear
    policiesY := policiesOfYear
    grossInsuranceRevenue := grossOfYear
    claimsY := claimsOfYear
    netInsuranceRevenue := grossOfYear - claimsOfYear }

/-- `df_year`: one row per year in `range(1, horizon_years + 1)`. -/
def df_year (s : Scenario) : List YearRow :=
  (List.range s.horizon_years).map (fun i => yearRow s (i + 1))

/-- The concrete scenario of the spec's end-to-end example (claim C1):
`rooms=120, occupancy=0.72, avg_stay=2.4, annualRevenue=50,000,000,
price=18, take=0.18, claim_rate=0.06, avg_claim_cost=220`. -/
def bpExample : Scenario :=
  { rooms := 120
    occupancy := 0.72
    avg_stay := 2.4
    hotel_rev_year_eur := 50000000
    insurance_price := 18
    take_rate := 0.18
    claim_rate := 0.06
    avg_claim_cost := 220
    horizon_years := 1
    growth := 0.05 }

/-- The growth example of the spec (claim C3): `horizonYears = 3`,
`growth = 0.05`, base revenue `1,000,000`. -/
def bpGrowth : Scenario :=
  { bpExample with hotel_rev_year_eur := 1000000, horizon_years := 3, growth := 0.05 }

/-- The C1 scenario with `occupancy = 0` (claim C5). -/
def bpZeroOcc : Scenario := { bpExample with occupancy := 0 }

/-- The C1 scenario with zero annual revenue (claim C9). -/
def bpZeroRev : Scenario := { bpExample with hotel_rev_year_eur := 0 }

theorem seasonRaw_ge (p : ℕ) (a : ℝ) (m : ℕ) : (0.05 : ℝ) ≤ seasonRaw p a m :=
  le_max_left _ _

theorem seasonRaw_pos (p : ℕ) (a : ℝ) (m : ℕ) : (0 : ℝ) < seasonRaw p a m :=
  lt_of_lt_of_le (by norm_num) (seasonRaw_ge p a m)

theorem seasonSum_pos (p : ℕ) (a : ℝ) : (0 : ℝ) < seasonSum p a :=
  Finset.sum_pos (fun i _ => seasonRaw_pos p a i) Finset.univ_nonempty

theorem seasonWeight_pos (p : ℕ) (a : ℝ) (m : ℕ) : 0 < seasonWeight p a m :=
  div_pos (seasonRaw_pos p a m) (seasonSum_pos p a)

theorem sum_seasonWeight (p : ℕ) (a : ℝ) : ∑ m : Fin 12, seasonWeight p a m = 1 := by
  unfold seasonWeight
  rw [← Finset.sum_div]
  exact div_self (seasonSum_pos p a).ne'

theorem seasonalityWeights_sum (p : ℕ) (a : ℝ) : (seasonalityWeights p a).sum = 1 := by
  rw [seasonalityWeights, List.sum_ofFn]
  exact sum_seasonWeight p a

/-- With `amplitude ≤ 0.6` the `0.05` floor never binds: each raw value is
just `1 + amplitude * cos(angle)`. -/
theorem seasonRaw_eq_of_amp_le (p : ℕ) (a : ℝ) (ha0 : 0 ≤ a) (ha1 : a ≤ 0.6)
    (m : ℕ) : seasonRaw p a m = 1 + a * Real.cos (seasonAngle p m) := by
  rw [seasonRaw]
  apply max_eq_right
  nlinarith [Real.neg_one_le_cos (seasonAngle p m), Real.cos_le_one (seasonAngle p m)]

/-- C4: for `peakMonth ∈ 1..12` and `amplitude ∈ [0, 0.6]` the seasonality
function returns exactly 12 strictly positive weights summing (exactly, hence
within `1e-9`) to 1, and weight `m` is
`max(0.05, 1 + a·cos(2π(m − (p−1))/12))` divided by the sum of the 12 raw
values — the algorithm stated in the spec. -/
theorem c4_weights_contract (p : ℕ) (a : ℝ) (hp1 : 1 ≤ p) (hp2 : p ≤ 12)
    (ha0 : 0 ≤ a) (ha1 : a ≤ 0.6) :
    (seasonalityWeights p a).length = 12 ∧
    (∀ w ∈ seasonalityWeights p a, 0 < w) ∧
    (seasonalityWeights p a).sum = 1 ∧
    ∀ m : Fin 12,
      (seasonalityWeights p a).get (Fin.cast (by simp [seasonalityWeights]) m) =
        max 0.05 (1 + a * Real.cos (2 * Real.pi * ((m : ℝ) - ((p : ℝ) - 1)) / 12)) /
          ∑ k : Fin 12,
            max 0.05 (1 + a * Real.cos (2 * Real.pi * ((k : ℝ) - ((p : ℝ) - 1)) / 12)) := by
  have hangle : ∀ m : ℕ,
      seasonAngle p m = 2 * Real.pi * ((m : ℝ) - ((p : ℝ) - 1)) / 12 := by
    intro m
    rw [seasonAngle, Nat.mod_eq_of_lt (by omega), Nat.cast_sub hp1, Nat.cast_one]
  have hraw : ∀ m : ℕ,
      seasonRaw p a m =
        max 0.05 (1 + a * Real.cos (2 * Real.pi * ((m : ℝ) - ((p : ℝ) - 1)) / 12)) := by
    intro m
    rw [seasonRaw, hangle]
  refine ⟨by simp [seasonalityWeights], ?_, seasonalityWeights_sum p a, ?_⟩
  · intro w hw
    rw [seasonalityWeights, List.mem_ofFn] at hw
    obtain ⟨i, rfl⟩ := hw
    exact seasonWeight_pos p a i
  · intro m
    have hget : (seasonalityWeights p a).get (Fin.cast (by simp [seasonalityWeights]) m) =
        seasonWeight p a m := by
      simp only [seasonalityWeights]
      rw [List.get_ofFn]
      simp
    rw [hget, seasonWeight, seasonSum]
    simp only [hraw]

/-- C2: each monthly row is the annual value times that month's weight and
the weights sum to 1, so every field of the 12-row monthly table sums back
to the annual point estimate — exactly, hence within `1e-6` relative
tolerance. -/
theorem c2_monthly_sums_to_annual (s : Scenario) (p : ℕ) (a : ℝ)
    (hp1 : 1 ≤ p) (hp2 : p ≤ 12) (ha0 : 0 ≤ a) (ha1 : a ≤ 0.6) :
    ((df_month s p a).map MonthRow.hotelRevenue).sum = (s.hotel_rev_year_eur : ℝ) ∧
    ((df_month s p a).map MonthRow.roomNightsSold).sum = (room_nights_sold s : ℝ) ∧
    ((df_month s p a).map MonthRow.staysM).sum = (stays s : ℝ) ∧
    ((df_month s p a).map MonthRow.policiesM).sum = (policies s : ℝ) ∧
    ((df_month s p a).map MonthRow.grossInsuranceRevenue).sum = (gross_ins_rev s : ℝ) ∧
    ((df_month s p a).map MonthRow.claimsM).sum = (claims s : ℝ) ∧
    ((df_month s p a).map MonthRow.netInsuranceRevenue).sum = (net_ins_rev s : ℝ) := by
  have key : ∀ x : ℝ, (∑ m : Fin 12, x * seasonWeight p a m) = x := by
    intro x
    rw [← Finset.mul_sum, sum_seasonWeight, mul_one]
  refine ⟨?_, ?_, ?_, ?_, ?_, ?_, ?_⟩ <;>
    · simp only [df_month, monthRow, List.map_ofFn, Function.comp_def, List.sum_ofFn]
      exact key _

/-- At the peak index `peakMonth - 1` the cosine angle is zero. -/
theorem seasonAngle_peak (p : ℕ) (hp1 : 1 ≤ p) (hp2 : p ≤ 12) :
    seasonAngle p (p - 1) = 0 := by
  rw [seasonAngle, Nat.mod_eq_of_lt (by omega)]
  ring

/-- At the trough index `(peakMonth - 1 + 6) % 12` the cosine equals `-1`. -/
theorem cos_seasonAngle_trough (p : ℕ) (hp1 : 1 ≤ p) (hp2 : p ≤ 12) :
    Real.cos (seasonAngle p ((p - 1 + 6) % 12)) = -1 := by
  rw [seasonAngle, Nat.mod_eq_of_lt (show p - 1 < 12 by omega)]
  rcases le_or_lt (p - 1 + 6) 11 with h | h
  · rw [Nat.mod_eq_of_lt (by omega)]
    have hc : ((p - 1 + 6 : ℕ) : ℝ) = ((p - 1 : ℕ) : ℝ) + 6 := by push_cast; ring
    rw [hc, show 2 * Real.pi * (((p - 1 : ℕ) : ℝ) + 6 - ((p - 1 : ℕ) : ℝ)) / 12 =
      Real.pi by ring, Real.cos_pi]
  · have h7 : 7 ≤ p := by omega
    have h12 : (p - 1 + 6) % 12 = p - 7 := by omega
    have hc : ((p - 7 : ℕ) : ℝ) = ((p - 1 : ℕ) : ℝ) - 6 := by
      rw [Nat.cast_sub h7, Nat.cast_sub hp1]
      push_cast
      ring
    rw [h12, hc,
      show 2 * Real.pi * (((p - 1 : ℕ) : ℝ) - 6 - ((p - 1 : ℕ) : ℝ)) / 12 =
        -Real.pi by ring,
      Real.cos_neg, Real.cos_pi]

/-- C8: for `peakMonth ∈ 1..12` and `amplitude ∈ (0, 0.6]` the weight at
index `peakMonth - 1` (calendar month `peakMonth`) is the maximum of the
12 weights and the weight at index `(peakMonth - 1 + 6) % 12` (calendar
month `peakMonth + 6 (mod 12)`) is the minimum. -/
theorem c8_single_peak (p : ℕ) (a : ℝ) (hp1 : 1 ≤ p) (hp2 : p ≤ 12)
    (ha0 : 0 < a) (ha1 : a ≤ 0.6) :
    ∀ m : Fin 12,
      seasonWeight p a m ≤ seasonWeight p a (p - 1) ∧
      seasonWeight p a ((p - 1 + 6) % 12) ≤ seasonWeight p a m := by
  intro m
  have hS := seasonSum_pos p a
  have hr := seasonRaw_eq_of_amp_le p a ha0.le ha1
  have hpeak : seasonRaw p a (p - 1) = 1 + a := by
    rw [hr, seasonAngle_peak p hp1 hp2, Real.cos_zero, mul_one]
  have htrough : seasonRaw p a ((p - 1 + 6) % 12) = 1 - a := by
    rw [hr, cos_seasonAngle_trough p hp1 hp2]
    ring
  have hub : seasonRaw p a m ≤ 1 + a := by
    rw [hr]
    nlinarith [Real.cos_le_one (seasonAngle p m)]
  have hlb : 1 - a ≤ seasonRaw p a m := by
    rw [hr]
    nlinarith [Real.neg_one_le_cos (seasonAngle p m)]
  constructor
  · unfold seasonWeight
    rw [hpeak]
    exact div_le_div_of_nonneg_right hub hS.le
  · unfold seasonWeight
    rw [htrough]
    exact div_le_div_of_nonneg_right hlb hS.le

theorem room_nights_sold_nonneg (s : Scenario) : 0 ≤ room_nights_sold s := by
  by_cases h : s.occupancy > 0
  · rw [room_nights_sold, if_pos h, room_nights_capacity]
    have h0 : (0 : ℚ) ≤ (s.rooms : ℚ) := Nat.cast_nonneg _
    nlinarith
  · rw [room_nights_sold, if_neg h]

theorem stays_nonneg (s : Scenario) : 0 ≤ stays s := by
  by_cases h : s.avg_stay > 0
  · rw [stays, if_pos h]
    exact div_nonneg (room_nights_sold_nonneg s) h.le
  · rw [stays, if_neg h]

/-- C5: with `occupancy = 0` the model raises no division error:
`room_nights_sold = 0`, `adr` is the undefined sentinel, `stays = 0`, all
insurance fields are `0` and `loss_ratio` is the undefined sentinel. -/
theorem c5_zero_occupancy (s : Scenario) (h : s.occupancy = 0) :
    room_nights_sold s = 0 ∧ adr s = none ∧ stays s = 0 ∧ policies s = 0 ∧
    gross_ins_rev s = 0 ∧ claims s = 0 ∧ net_ins_rev s = 0 ∧
    loss_ratio s = none := by
  have h1 : room_nights_sold s = 0 := by
    rw [room_nights_sold, h]
    simp
  have h2 : adr s = none := by
    rw [adr, h1]
    simp
  have h3 : stays s = 0 := by
    rw [stays, h1]
    split <;> simp
  have h4 : policies s = 0 := by rw [policies, h3, zero_mul]
  have h5 : gross_ins_rev s = 0 := by rw [gross_ins_rev, h4, zero_mul]
  have h6 : claims s = 0 := by
    rw [claims, h4]
    ring
  have h7 : net_ins_rev s = 0 := by
    rw [net_ins_rev, h5, h6]
    ring
  have h8 : loss_ratio s = none := by
    rw [loss_ratio, h5]
    simp
  exact ⟨h1, h2, h3, h4, h5, h6, h7, h8⟩

theorem c5_witness :
    bpZeroOcc.occupancy = 0 ∧
    (room_nights_sold bpZeroOcc = 0 ∧ adr bpZeroOcc = none ∧
      stays bpZeroOcc = 0 ∧ policies bpZeroOcc = 0 ∧
      gross_ins_rev bpZeroOcc = 0 ∧ claims bpZeroOcc = 0 ∧
      net_ins_rev bpZeroOcc = 0 ∧ loss_ratio bpZeroOcc = none) :=
  ⟨rfl, c5_zero_occupancy bpZeroOcc rfl⟩

/-- C6: for valid insurance assumptions, `loss_ratio` equals
`claims / gross_ins_rev` when the gross revenue is positive, and is the
undefined sentinel exactly when the gross revenue is zero. -/
theorem c6_loss_ratio_defined_iff (s : Scenario)
    (htr0 : 0 ≤ s.take_rate) (htr1 : s.take_rate ≤ 1)
    (hpr : 0 ≤ s.insurance_price) (hcr0 : 0 ≤ s.claim_rate)
    (hcr1 : s.claim_rate ≤ 1) (hcc : 0 ≤ s.avg_claim_cost) :
    (0 < gross_ins_rev s →
      loss_ratio s = some (claims s / gross_ins_rev s)) ∧
    (loss_ratio s = none ↔ gross_ins_rev s = 0) := by
  have hg : 0 ≤ gross_ins_rev s := by
    rw [gross_ins_rev, policies]
    exact mul_nonneg (mul_nonneg (stays_nonneg s) htr0) hpr
  constructor
  · intro h
    rw [loss_ratio, if_pos h]
  · by_cases hpos : gross_ins_rev s > 0
    · rw [loss_ratio, if_pos hpos]
      simp [hpos.ne']
    · rw [loss_ratio, if_neg hpos]
      simp only [true_iff]
      exact le_antisymm (not_lt.1 hpos) hg

theorem c6_witness :
    ((0 : ℚ) ≤ bpExample.take_rate ∧ bpExample.take_rate ≤ 1 ∧
      (0 : ℚ) ≤ bpExample.insurance_price ∧ (0 : ℚ) ≤ bpExample.claim_rate ∧
      bpExample.claim_rate ≤ 1 ∧ (0 : ℚ) ≤ bpExample.avg_claim_cost) ∧
    (0 < gross_ins_rev bpExample →
      loss_ratio bpExample = some (claims bpExample / gross_ins_rev bpExample)) ∧
    (loss_ratio bpExample = none ↔ gross_ins_rev bpExample = 0) := by
  refine ⟨by norm_num [bpExample], ?_⟩
  exact c6_loss_ratio_defined_iff bpExample (by norm_num [bpExample])
    (by norm_num [bpExample]) (by norm_num [bpExample]) (by norm_num [bpExample])
    (by norm_num [bpExample]) (by norm_num [bpExample])

/-- C7: `netInsuranceRevenue = grossInsuranceRevenue − claims` holds exactly
for the annual point estimate, for every row of the monthly table, and for
every row of the multi-year table. -/
theorem c7_net_is_gross_minus_claims :
    (∀ s : Scenario, net_ins_rev s = gross_ins_rev s - claims s) ∧
    (∀ (s : Scenario) (p : ℕ) (a : ℝ), ∀ r ∈ df_month s p a,
      r.netInsuranceRevenue = r.grossInsuranceRevenue - r.claimsM) ∧
    (∀ s : Scenario, ∀ r ∈ df_year s,
      r.netInsuranceRevenue = r.grossInsuranceRevenue - r.claimsY) := by
  refine ⟨fun s => rfl, ?_, ?_⟩
  · intro s p a r hr
    rw [df_month, List.mem_ofFn] at hr
    obtain ⟨i, rfl⟩ := hr
    simp only [monthRow, net_ins_rev]
    push_cast
    ring
  · intro s r hr
    rw [df_year, List.mem_map] at hr
    obtain ⟨i, -, rfl⟩ := hr
    rfl

theorem c7_witness :
    (monthRow bpExample 7 0.2 0 ∈ df_month bpExample 7 0.2) ∧
    (monthRow bpExample 7 0.2 0).netInsuranceRevenue =
      (monthRow bpExample 7 0.2 0).grossInsuranceRevenue -
        (monthRow bpExample 7 0.2 0).claimsM ∧
    (yearRow bpExample 1 ∈ df_year bpExample) ∧
    (yearRow bpExample 1).netInsuranceRevenue =
      (yearRow bpExample 1).grossInsuranceRevenue -
        (yearRow bpExample 1).claimsY := by
  have hm : monthRow bpExample 7 0.2 0 ∈ df_month bpExample 7 0.2 := by
    rw [df_month, List.mem_ofFn]
    exact ⟨0, rfl⟩
  have hy : yearRow bpExample 1 ∈ df_year bpExample := by
    rw [df_year]
    exact List.mem_map.2 ⟨0, List.mem_range.2 (by norm_num [bpExample]), rfl⟩
  exact ⟨hm, c7_net_is_gross_minus_claims.2.1 bpExample 7 0.2 _ hm, hy,
    c7_net_is_gross_minus_claims.2.2 bpExample _ hy⟩

/-- C1: for the spec's concrete inputs the model computes
`roomNightsSold = 31,536`, `stays = 13,140`, `policies = 2,365.2`,
`grossInsuranceRevenue = 42,573.6`, `claims = 31,220.64`,
`netInsuranceRevenue = 11,352.96`, and `lossRatio = 11/15 ≈ 0.7333`. -/
theorem c1_concrete_end_to_end :
    room_nights_sold bpExample = 31536 ∧
    stays bpExample = 13140 ∧
    policies bpExample = 2365.2 ∧
    gross_ins_rev bpExample = 42573.6 ∧
    claims bpExample = 31220.64 ∧
    net_ins_rev bpExample = 11352.96 ∧
    loss_ratio bpExample = some (11 / 15) ∧
    |(11 : ℚ) / 15 - 0.7333| < 0.0001 := by
  refine ⟨?_, ?_, ?_, ?_, ?_, ?_, ?_, ?_⟩ <;>
    norm_num [room_nights_sold, room_nights_capacity, stays, policies, gross_ins_rev,
      claims, net_ins_rev, loss_ratio, bpExample, abs]

/-- C3: with positive base revenue, `df_year` satisfies
`hotelRevenue[y] = base * (1+growth)^(y-1)`, and each year's insurance
fields — recomputed from that year's scaled stays via the insurance-layer
formulas — equal the year-1 (point-estimate) fields scaled by the revenue
ratio `hotelRevenue[y] / hotelRevenue[1]`; for the concrete inputs
`horizon=3, growth=0.05, base=1,000,000` the revenue column is
`[1,000,000; 1,050,000; 1,102,500]`. -/
theorem c3_growth_and_scaling (s : Scenario) (hrev : 0 < s.hotel_rev_year_eur) :
    (∀ r ∈ df_year s,
      r.hotelRevenue = s.hotel_rev_year_eur * (1 + s.growth) ^ (r.year - 1)) ∧
    (∀ r ∈ df_year s,
      r.staysY = stays s * (r.hotelRevenue / s.hotel_rev_year_eur) ∧
      r.policiesY = policies s * (r.hotelRevenue / s.hotel_rev_year_eur) ∧
      r.grossInsuranceRevenue =
        gross_ins_rev s * (r.hotelRevenue / s.hotel_rev_year_eur) ∧
      r.claimsY = claims s * (r.hotelRevenue / s.hotel_rev_year_eur) ∧
      r.netInsuranceRevenue =
        net_ins_rev s * (r.hotelRevenue / s.hotel_rev_year_eur)) ∧
    (df_year bpGrowth).map YearRow.hotelRevenue = [1000000, 1050000, 1102500] := by
  refine ⟨?_, ?_, ?_⟩
  · intro r hr
    rw [df_year, List.mem_map] at hr
    obtain ⟨i, -, rfl⟩ := hr
    rfl
  · intro r hr
    rw [df_year, List.mem_map] at hr
    obtain ⟨i, -, rfl⟩ := hr
    have hrs : rev_scale s (i + 1) =
        hotelRevenueYear s (i + 1) / s.hotel_rev_year_eur := by
      rw [rev_scale, if_pos hrev]
    refine ⟨?_, ?_, ?_, ?_, ?_⟩ <;>
      simp only [yearRow, hrs, policies, gross_ins_rev, claims, net_ins_rev,
        attach_rate, hotelRevenueYear] <;>
      ring
  · norm_num [df_year, bpGrowth, bpExample, yearRow, hotelRevenueYear,
      List.range_succ]

theorem c3_witness :
    (0 : ℚ) < bpGrowth.hotel_rev_year_eur ∧
    (df_year bpGrowth).map YearRow.hotelRevenue = [1000000, 1050000, 1102500] :=
  ⟨by norm_num [bpGrowth, bpExample],
    (c3_growth_and_scaling bpGrowth (by norm_num [bpGrowth, bpExample])).2.2⟩

/-- C9: with non-positive annual revenue but positive rooms, occupancy and
average stay, the annual point estimate has `stays > 0`, yet every row of
`df_year` — year 1 included — has all volume and insurance fields equal to
0 (the revenue scale factor is 0 unless base revenue is strictly
positive), so no row's stays reproduce the point estimate. -/
theorem c9_zero_revenue_annual_table (s : Scenario)
    (hrev : s.hotel_rev_year_eur ≤ 0) (hrooms : 0 < s.rooms)
    (hocc : 0 < s.occupancy) (hstay : 0 < s.avg_stay) :
    0 < stays s ∧
    ∀ r ∈ df_year s,
      r.roomNightsSold = 0 ∧ r.staysY = 0 ∧ r.policiesY = 0 ∧
      r.grossInsuranceRevenue = 0 ∧ r.claimsY = 0 ∧
      r.netInsuranceRevenue = 0 ∧ r.staysY ≠ stays s := by
  have hrns : 0 < room_nights_sold s := by
    rw [room_nights_sold, if_pos hocc, room_nights_capacity]
    have h0 : (0 : ℚ) < (s.rooms : ℚ) := by exact_mod_cast hrooms
    nlinarith
  have hst : 0 < stays s := by
    rw [stays, if_pos hstay]
    exact div_pos hrns hstay
  have hscale : ∀ y, rev_scale s y = 0 := by
    intro y
    rw [rev_scale, if_neg (not_lt.2 hrev)]
  refine ⟨hst, ?_⟩
  intro r hr
  rw [df_year, List.mem_map] at hr
  obtain ⟨i, -, rfl⟩ := hr
  refine ⟨?_, ?_, ?_, ?_, ?_, ?_, ?_⟩ <;>
    simp only [yearRow, hscale, mul_zero, zero_mul, sub_zero]
  exact hst.ne

theorem c9_witness :
    (bpZeroRev.hotel_rev_year_eur ≤ 0 ∧ 0 < bpZeroRev.rooms ∧
      0 < bpZeroRev.occupancy ∧ 0 < bpZeroRev.avg_stay) ∧
    0 < stays bpZeroRev ∧
    (yearRow bpZeroRev 1).staysY = 0 ∧
    (yearRow bpZeroRev 1).staysY ≠ stays bpZeroRev := by
  have h := c9_zero_revenue_annual_table bpZeroRev
    (by norm_num [bpZeroRev, bpExample]) (by norm_num [bpZeroRev, bpExample])
    (by norm_num [bpZeroRev, bpExample]) (by norm_num [bpZeroRev, bpExample])
  have hy : yearRow bpZeroRev 1 ∈ df_year bpZeroRev := by
    rw [df_year]
    exact List.mem_map.2 ⟨0, List.mem_range.2 (by norm_num [bpZeroRev, bpExample]), rfl⟩
  exact ⟨⟨by norm_num [bpZeroRev, bpExample], by norm_num [bpZeroRev, bpExample],
      by norm_num [bpZeroRev, bpExample], by norm_num [bpZeroRev, bpExample]⟩,
    h.1, (h.2 _ hy).2.1, (h.2 _ hy).2.2.2.2.2.2⟩

/-- C10: whenever the loss ratio is defined (positive gross revenue, with a
non-negative price), it equals `claim_rate * avg_claim_cost /
insurance_price` — independent of stays, take rate and annual revenue. -/
theorem c10_loss_ratio_formula (s : Scenario) (hpr : 0 ≤ s.insurance_price)
    (hg : 0 < gross_ins_rev s) :
    loss_ratio s =
      some (s.claim_rate * s.avg_claim_cost / s.insurance_price) := by
  have hprice : 0 < s.insurance_price := by
    rcases hpr.lt_or_eq with h | h
    · exact h
    · exfalso
      rw [gross_ins_rev, ← h, mul_zero] at hg
      exact lt_irrefl _ hg
  have hpol : policies s ≠ 0 := by
    intro h0
    rw [gross_ins_rev, h0, zero_mul] at hg
    exact lt_irrefl _ hg
  rw [loss_ratio, if_pos hg]
  congr 1
  rw [claims, gross_ins_rev]
  field_simp
  ring

theorem c10_witness :
    ((0 : ℚ) ≤ bpExample.insurance_price ∧ 0 < gross_ins_rev bpExample) ∧
    loss_ratio bpExample = some (0.06 * 220 / 18) := by
  refine ⟨⟨by norm_num [bpExample], ?_⟩, ?_⟩
  · norm_num [gross_ins_rev, policies, stays, room_nights_sold,
      room_nights_capacity, bpExample]
  · exact c10_loss_ratio_formula bpExample (by norm_num [bpExample])
      (by norm_num [gross_ins_rev, policies, stays, room_nights_sold,
        room_nights_capacity, bpExample])

theorem c2_witness :
    ((1 : ℕ) ≤ 7 ∧ (7 : ℕ) ≤ 12 ∧ (0 : ℝ) ≤ 0.2 ∧ (0.2 : ℝ) ≤ 0.6) ∧
    ((df_month bpExample 7 0.2).map MonthRow.grossInsuranceRevenue).sum =
      (gross_ins_rev bpExample : ℝ) :=
  ⟨by norm_num,
    (c2_monthly_sums_to_annual bpExample 7 0.2 (by norm_num) (by norm_num)
      (by norm_num) (by norm_num)).2.2.2.2.1⟩

theorem c4_witness :
    ((1 : ℕ) ≤ 7 ∧ (7 : ℕ) ≤ 12 ∧ (0 : ℝ) ≤ 0.2 ∧ (0.2 : ℝ) ≤ 0.6) ∧
    (seasonalityWeights 7 0.2).length = 12 ∧
    (seasonalityWeights 7 0.2).sum = 1 :=
  ⟨by norm_num,
    (c4_weights_contract 7 0.2 (by norm_num) (by norm_num) (by norm_num)
      (by norm_num)).1,
    (c4_weights_contract 7 0.2 (by norm_num) (by norm_num) (by norm_num)
      (by norm_num)).2.2.1⟩

theorem c8_witness :
    ((1 : ℕ) ≤ 7 ∧ (7 : ℕ) ≤ 12 ∧ (0 : ℝ) < 0.2 ∧ (0.2 : ℝ) ≤ 0.6) ∧
    seasonWeight 7 0.2 3 ≤ seasonWeight 7 0.2 6 ∧
    seasonWeight 7 0.2 0 ≤ seasonWeight 7 0.2 3 :=
  ⟨by norm_num,
    c8_single_peak 7 0.2 (by norm_num) (by norm_num) (by norm_num)
      (by norm_num) 3⟩
